import Mathlib

/-!
Verification of the DataStorm repository: a shallow embedding of the
forecasting core (as specified) and of the dashboard's numeric helpers
(`DayOfCover.jsx`, `WeatherCorrelation`), with theorems settling the
stated properties.
-/

set_option maxHeartbeats 1000000

/-! ## Frontend numeric helpers -/

/-- JavaScript `Math.round`: rounds to the nearest integer, halves toward
positive infinity, i.e. `floor (x + 1/2)`. -/
def jsRound (x : ℚ) : ℤ := ⌊x + 1/2⌋

/-- The Suggested Order Quantity cell of the DayOfCover table
(`DayOfCover.jsx` line 233):
`Math.round((parseFloat(avg_daily_demand) * (parseFloat(lead_time_days) + 2)) - parseFloat(stock_on_hand))`.
The safety-stock term is the literal constant `2`. -/
def suggestedOrderQty (avg lt soh : ℚ) : ℤ := jsRound (avg * (lt + 2) - soh)

/-- The three stock-level labels produced by `renderBadge`. -/
inductive StockLabel where
  | healthy
  | moderate
  | low
deriving DecidableEq, Repr

/-- `renderBadge` from `DayOfCover.jsx` lines 81-88: computes
`days = Math.floor(doc)`, `hours = Math.round((doc - days) * 24)`, and
labels the row Healthy when `doc >= 7`, Moderate when `doc >= 4`,
Low otherwise. Returns (label, days, hours). -/
def renderBadge (doc : ℚ) : StockLabel × ℤ × ℤ :=
  let days : ℤ := ⌊doc⌋
  let hours : ℤ := jsRound ((doc - days) * 24)
  if doc ≥ 7 then (.healthy, days, hours)
  else if doc ≥ 4 then (.moderate, days, hours)
  else (.low, days, hours)

/-- Mean of field `v` over the rows, as computed by the two
`data.reduce((sum, d) => sum + d[var], 0) / n` expressions in
`calculateCorrelation` (`WeatherCorrelation`, part_004 lines 57-58). -/
noncomputable def fieldMean (data : List (String → ℝ)) (v : String) : ℝ :=
  (data.map (fun d => d v)).sum / data.length

/-- Sum of squared deviations of field `v` from its mean, as computed by
`data.reduce((sum, d) => sum + Math.pow(d[var] - mean, 2), 0)`
(part_004 lines 66 and 69). -/
noncomputable def sqDev (data : List (String → ℝ)) (v : String) : ℝ :=
  (data.map (fun d => (d v - fieldMean data v) ^ 2)).sum

/-- `calculateCorrelation(data, var1, var2)` from part_004 lines 54-73:
returns 0 on empty data, otherwise Pearson correlation
`numerator / (sqrt(sqDev var1) * sqrt(sqDev var2))`, guarded to return 0
when the denominator is 0. -/
noncomputable def calculateCorrelation (data : List (String → ℝ)) (v1 v2 : String) : ℝ :=
  if data.length = 0 then 0
  else
    let numerator :=
      (data.map (fun d => (d v1 - fieldMean data v1) * (d v2 - fieldMean data v2))).sum
    let denominator := Real.sqrt (sqDev data v1) * Real.sqrt (sqDev data v2)
    if denominator = 0 then 0 else numerator / denominator

/-- C8: the Suggested Order Quantity displayed by the DayOfCover table is
`round(avg_daily_demand * (lead_time_days + 2) - stock_on_hand)` — the
safety-stock term is the hard-coded constant 2 — and the value is not
clamped at zero: whenever stock on hand exceeds lead-time demand by more
than half a unit the displayed quantity is negative. -/
theorem suggestedOrderQty_formula_unclamped (avg lt soh : ℚ) :
    suggestedOrderQty avg lt soh = ⌊avg * (lt + 2) - soh + 1/2⌋ ∧
    (avg * (lt + 2) + 1/2 < soh → suggestedOrderQty avg lt soh < 0) := by
  constructor
  · rfl
  · intro h
    show jsRound (avg * (lt + 2) - soh) < 0
    unfold jsRound
    have : avg * (lt + 2) - soh + 1/2 < ((0 : ℤ) : ℚ) := by push_cast; linarith
    exact Int.floor_lt.mpr this

/-- Witness for C8 at a concrete row: average daily demand 1, lead time 3,
stock on hand 10 gives a negative suggested order quantity. -/
theorem suggestedOrderQty_formula_unclamped_witness :
    suggestedOrderQty 1 3 10 < 0 :=
  (suggestedOrderQty_formula_unclamped 1 3 10).2 (by norm_num)

/-- C9: `calculateCorrelation` is symmetric in its two field arguments,
returns 0 on an empty data array, and returns 0 whenever either field has
zero variance over the array (zero denominator is guarded, not divided by). -/
theorem calculateCorrelation_symm_guarded (data : List (String → ℝ)) (v1 v2 : String) :
    calculateCorrelation data v1 v2 = calculateCorrelation data v2 v1 ∧
    (data = [] → calculateCorrelation data v1 v2 = 0) ∧
    (sqDev data v1 = 0 ∨ sqDev data v2 = 0 → calculateCorrelation data v1 v2 = 0) := by
  refine ⟨?_, ?_, ?_⟩
  · unfold calculateCorrelation
    by_cases h : data.length = 0
    · simp [h]
    · simp only [h, if_false]
      have hnum :
          (data.map (fun d => (d v1 - fieldMean data v1) * (d v2 - fieldMean data v2))).sum =
          (data.map (fun d => (d v2 - fieldMean data v2) * (d v1 - fieldMean data v1))).sum := by
        congr 1
        exact List.map_congr_left (fun d _ => mul_comm _ _)
      rw [hnum, mul_comm (Real.sqrt (sqDev data v1)) (Real.sqrt (sqDev data v2))]
  · intro h
    subst h
    rfl
  · intro h
    unfold calculateCorrelation
    by_cases hlen : data.length = 0
    · simp [hlen]
    · have hden : Real.sqrt (sqDev data v1) * Real.sqrt (sqDev data v2) = 0 := by
        rcases h with h | h <;> rw [h] <;> simp [Real.sqrt_zero]
      simp [hlen, hden]

/-- Witness for C9: on the empty data array the correlation is 0. -/
theorem calculateCorrelation_symm_guarded_witness :
    calculateCorrelation [] "temperature" "sales" = 0 :=
  (calculateCorrelation_symm_guarded [] "temperature" "sales").2.1 rfl

/-- C10: `renderBadge` assigns exactly one of three labels — Healthy iff
`doc ≥ 7`, Moderate iff `4 ≤ doc < 7`, Low iff `doc < 4` — and displays
`days = floor doc` and `hours = round (24 * (doc - floor doc))`; the hours
value always lies in `0..24` and equals 24 whenever the fractional part of
`doc` is at least `47/48`. -/
theorem renderBadge_spec (doc : ℚ) :
    ((renderBadge doc).1 = .healthy ↔ 7 ≤ doc) ∧
    ((renderBadge doc).1 = .moderate ↔ 4 ≤ doc ∧ doc < 7) ∧
    ((renderBadge doc).1 = .low ↔ doc < 4) ∧
    (renderBadge doc).2.1 = ⌊doc⌋ ∧
    (renderBadge doc).2.2 = ⌊(doc - ⌊doc⌋) * 24 + 1/2⌋ ∧
    (0 ≤ (renderBadge doc).2.2 ∧ (renderBadge doc).2.2 ≤ 24) ∧
    (47/48 ≤ doc - ⌊doc⌋ → (renderBadge doc).2.2 = 24) := by
  have hfrac0 : (0 : ℚ) ≤ doc - ⌊doc⌋ := by
    have := Int.floor_le doc
    linarith
  have hfrac1 : doc - ⌊doc⌋ < 1 := by
    have := Int.lt_floor_add_one doc
    linarith
  have hsnd : (renderBadge doc).2 = (⌊doc⌋, jsRound ((doc - ⌊doc⌋) * 24)) := by
    unfold renderBadge
    split_ifs <;> rfl
  have hlow : 0 ≤ jsRound ((doc - ⌊doc⌋) * 24) := by
    unfold jsRound
    have : ((0 : ℤ) : ℚ) ≤ (doc - ⌊doc⌋) * 24 + 1/2 := by push_cast; nlinarith
    exact Int.le_floor.mpr this
  have hhigh : jsRound ((doc - ⌊doc⌋) * 24) ≤ 24 := by
    unfold jsRound
    have : (doc - ⌊doc⌋) * 24 + 1/2 < ((24 : ℤ) : ℚ) + 1 := by push_cast; nlinarith
    exact Int.le_of_lt_add_one (Int.floor_lt.mpr (by push_cast at this ⊢; linarith))
  refine ⟨?_, ?_, ?_, ?_, ?_, ?_, ?_⟩
  · unfold renderBadge
    split_ifs with h1 h2 <;> simp_all
  · unfold renderBadge
    split_ifs with h1 h2 <;> simp_all
  · unfold renderBadge
    split_ifs with h1 h2 <;> simp_all
    linarith
  · rw [hsnd]
  · rw [hsnd]; rfl
  · rw [hsnd]; exact ⟨hlow, hhigh⟩
  · intro h
    rw [hsnd]
    have h24 : (24 : ℤ) ≤ jsRound ((doc - ⌊doc⌋) * 24) := by
      unfold jsRound
      have : ((24 : ℤ) : ℚ) ≤ (doc - ⌊doc⌋) * 24 + 1/2 := by push_cast; nlinarith
      exact Int.le_floor.mpr this
    exact le_antisymm hhigh h24

/-- Witness for C10: a day-of-cover value of 8 is labelled Healthy. -/
theorem renderBadge_spec_witness : (renderBadge 8).1 = .healthy :=
  (renderBadge_spec 8).1.mpr (by norm_num)

/-! ## Forecasting core

The AI backend sources (`ai_backend/core.py`, `ai_backend/server.py`) are
not part of this tree — only their README is — so the core is modelled
from the specification, faithful to its words. -/

/-- Modelled from the spec (§3 HistoricalRecord; `core.py` absent): one
row per (date, store, SKU) of the append-only training corpus, with the
stockout flag consumed by the Demand Imputer. Dates are day numbers. -/
structure HistoricalRecord where
  date : ℤ
  store_id : String
  sku_id : String
  units_sold : ℚ
  stock_on_hand : ℚ
  list_price : ℚ
  discount_pct : ℚ
  promo_flag : Bool
  category : String
  brand : String
  temperature : ℚ
  rain_mm : ℚ
  is_holiday : Bool
  channel : String
  stockout : Bool
deriving DecidableEq

/-- Modelled from the spec (§3 ImputedDemandRecord; `core.py` absent):
the corrected demand estimate used as the regression target. -/
structure ImputedDemandRecord where
  date : ℤ
  store_id : String
  sku_id : String
  demand : ℚ
deriving DecidableEq

/-- Modelled from the spec (§4.2 Demand Imputer; `core.py` absent): the
fitted count-regression model is abstracted as `model`; on a stockout row
the model estimate is taken only when it exceeds the observed units sold
(never overridden with a smaller value), on a row without stockout the
observed value is kept unchanged. -/
def impute (model : HistoricalRecord → ℚ) (r : HistoricalRecord) : ImputedDemandRecord :=
  { date := r.date
    store_id := r.store_id
    sku_id := r.sku_id
    demand := if r.stockout then max r.units_sold (model r) else r.units_sold }

/-- Modelled from the spec (§3 FeatureVector; `core.py` absent): the
demand-derived and calendar features. The price/promo/weather covariates
of the full schema play no role in any verified claim and are omitted. -/
structure FeatureVector where
  lag1 : ℚ
  lag7 : ℚ
  lag14 : ℚ
  lag28 : ℚ
  rollingMean7 : ℚ
  rollingMean30 : ℚ
  weekday : ℤ
  isWeekend : Bool

/-- Modelled from the spec (§7 error taxonomy; `core.py` absent): the
errors a Predict call can surface. -/
inductive PredictError where
  | insufficientHistory
  | modelNotTrained
deriving DecidableEq

/-- Modelled from the spec (§4.1): number of history rows dated strictly
before the anchor date. -/
def countPrior (series : List (ℤ × ℚ)) (anchor : ℤ) : ℕ :=
  (series.filter (fun p => decide (p.1 < anchor))).length

/-- Modelled from the spec (design note on the recursive loop): demand at
date `t`, preferring the latest entry carrying that date — a request's own
predictions are appended after the real history, so they take precedence —
and 0 when the date is absent. -/
def demandAt (series : List (ℤ × ℚ)) (t : ℤ) : ℚ :=
  (((series.filter (fun p => decide (p.1 = t))).getLast?).map Prod.snd).getD 0

/-- Modelled from the spec (§3): mean demand over the `n` days before the
anchor date. -/
def rollingMean (series : List (ℤ × ℚ)) (anchor : ℤ) (n : ℕ) : ℚ :=
  ((List.range n).map (fun k => demandAt series (anchor - 1 - (k : ℤ)))).sum / n

/-- Modelled from the spec (§4.1 Feature Builder; `core.py` absent):
builds the feature vector for an anchor date from an ordered history of
(date, demand) pairs; fails with `InsufficientHistoryError` when fewer
than 30 days of history precede the anchor date. Pure function. -/
def buildFeatures (series : List (ℤ × ℚ)) (anchor : ℤ) : Except PredictError FeatureVector :=
  if countPrior series anchor < 30 then .error .insufficientHistory
  else .ok
    { lag1 := demandAt series (anchor - 1)
      lag7 := demandAt series (anchor - 7)
      lag14 := demandAt series (anchor - 14)
      lag28 := demandAt series (anchor - 28)
      rollingMean7 := rollingMean series anchor 7
      rollingMean30 := rollingMean series anchor 30
      weekday := anchor % 7
      isWeekend := decide (anchor % 7 ≥ 5) }

/-- Modelled from the spec (design note: explicit accumulator array of
this request's own predictions): the prediction chain paired with its
forecast dates `start, start + 1, ...`. -/
def chainRecords (start : ℤ) (preds : List ℚ) : List (ℤ × ℚ) :=
  ((List.range preds.length).zip preds).map (fun p => (start + (p.1 : ℤ), p.2))

/-- Modelled from the spec (§4.3 Recursive Forecaster; `core.py` absent):
a linear fold of `n` one-step predictions; day `d` builds features from
real history plus the chain of the request's own prior-day predictions,
predicts with the single trained regressor `dm`, clips negatives to zero
and appends to the chain. -/
def runChain (dm : FeatureVector → ℚ) (hist : List (ℤ × ℚ)) (start : ℤ) :
    ℕ → Except PredictError (List ℚ)
  | 0 => .ok []
  | n + 1 =>
    Except.bind (runChain dm hist start n) (fun prev =>
      Except.bind (buildFeatures (hist ++ chainRecords start prev) (start + (n : ℤ)))
        (fun fv => .ok (prev ++ [max 0 (dm fv)])))

/-- Modelled from the spec (§3 PredictionRequest): the five request
fields; the cache fingerprint is exactly this tuple of values. -/
structure PredictionRequest where
  start_date : ℤ
  store_id : String
  sku_id : String
  category : String
  brand : String
deriving DecidableEq

/-- Modelled from the spec (§4.4 Lead Time Predictor): the day-specific
context the independent lead-time regressor sees — calendar date and the
request's store/SKU/category/brand — never the demand chain. -/
structure LeadContext where
  date : ℤ
  store_id : String
  sku_id : String
  category : String
  brand : String
deriving DecidableEq

/-- Modelled from the spec (§4.5 Explainer; `core.py` absent): a
single-feature additive attribution with baseline 0, so the attribution
sums to the prediction (local accuracy). -/
def attrOf (x : ℚ) : List (String × ℚ) := [("prediction", x)]

/-- Modelled from the spec (§3 PredictionResult): one daily entry. -/
structure DailyEntry where
  date : ℤ
  predicted_units_sold : ℚ
  predicted_lead_time_days : ℚ
  demand_shap_attribution : List (String × ℚ)
  lead_time_shap_attribution : List (String × ℚ)
deriving DecidableEq

/-- Modelled from the spec (§3 PredictionResult): the ordered daily
entries plus the originating request and a status flag. -/
structure PredictionResult where
  request : PredictionRequest
  predictions : List DailyEntry
  status : String
deriving DecidableEq

/-- Modelled from the spec (§4.3, §4.4): the daily entry for day offset
`i` — the chained demand prediction, and an independent per-day lead-time
prediction clamped at zero. -/
def mkEntry (req : PredictionRequest) (lm : LeadContext → ℚ) (demand : ℚ) (i : ℕ) : DailyEntry :=
  let lead := max 0 (lm ⟨req.start_date + (i : ℤ), req.store_id, req.sku_id, req.category, req.brand⟩)
  { date := req.start_date + (i : ℤ)
    predicted_units_sold := demand
    predicted_lead_time_days := lead
    demand_shap_attribution := attrOf demand
    lead_time_shap_attribution := attrOf lead }

/-- Modelled from the spec (§4.3, §6 Predict; `server.py` absent): run the
recursive forecaster for 7 days and assemble the PredictionResult; errors
surface as a tagged failure, never as partial results. -/
def predict (dm : FeatureVector → ℚ) (lm : LeadContext → ℚ)
    (hist : List (ℤ × ℚ)) (req : PredictionRequest) :
    Except PredictError PredictionResult :=
  Except.map (fun chain =>
    { request := req
      predictions := (List.range 7).map (fun i => mkEntry req lm (chain.getD i 0) i)
      status := "success" })
    (runChain dm hist req.start_date 7)

/-- Modelled from the spec (§3, §4.7): the cache fingerprint is the exact
tuple of the five request values, no normalization. -/
abbrev Fingerprint := ℤ × String × String × String × String

/-- Modelled from the spec (§4.7 Prediction Cache): fingerprint of a
request. -/
def fingerprint (req : PredictionRequest) : Fingerprint :=
  (req.start_date, req.store_id, req.sku_id, req.category, req.brand)

/-- Modelled from the spec (§4.7 Prediction Cache; `server.py` absent):
bounded map from fingerprints to results with LRU order (front = most
recently used) and hit/miss counters. -/
structure Cache where
  entries : List (Fingerprint × PredictionResult)
  hits : ℕ
  misses : ℕ
  capacity : ℕ
deriving DecidableEq

/-- Modelled from the spec (§4.7): `clear()` — empties the cache and
resets the counters (invoked after retraining). -/
def Cache.clear (c : Cache) : Cache :=
  { entries := [], hits := 0, misses := 0, capacity := c.capacity }

/-- Modelled from the spec (§4.7): `stats() -> {hits, misses, size,
capacity}`. -/
def Cache.stats (c : Cache) : ℕ × ℕ × ℕ × ℕ :=
  (c.hits, c.misses, c.entries.length, c.capacity)

/-- Modelled from the spec (§4.7): `get(fingerprint)` — exact-match
lookup; a hit moves the entry to the front (most recently used) and
increments `hits`, a miss increments `misses`. -/
def Cache.get (c : Cache) (fp : Fingerprint) : Option PredictionResult × Cache :=
  match c.entries.find? (fun p => decide (p.1 = fp)) with
  | some e =>
      (some e.2,
       { c with hits := c.hits + 1,
                entries := (fp, e.2) :: c.entries.filter (fun p => !decide (p.1 = fp)) })
  | none => (none, { c with misses := c.misses + 1 })

/-- Modelled from the spec (§4.7): `put(fingerprint, result)` — inserts at
the front and evicts beyond capacity (least-recently-used last). -/
def Cache.put (c : Cache) (fp : Fingerprint) (r : PredictionResult) : Cache :=
  { c with entries := ((fp, r) :: c.entries.filter (fun p => !decide (p.1 = fp))).take c.capacity }

/-- Modelled from the spec (§4.7, §5): one Predict call through the
cache — serve the cached result on a hit, otherwise run the expensive
computation and put the result. -/
def cachedPredict (compute : PredictionRequest → PredictionResult)
    (c : Cache) (req : PredictionRequest) : PredictionResult × Cache :=
  match Cache.get c (fingerprint req) with
  | (some r, c1) => (r, c1)
  | (none, c1) =>
      let r := compute req
      (r, Cache.put c1 (fingerprint req) r)

/-- Modelled from the spec (§8 cache idempotence): a sequence of Predict
calls threaded through the cache. -/
def runCalls (compute : PredictionRequest → PredictionResult) (c : Cache) :
    List PredictionRequest → Cache
  | [] => c
  | r :: rs => runCalls compute (cachedPredict compute c r).2 rs

/-- Modelled from the spec (§4.6): the three training stages. -/
inductive Stage where
  | imputer
  | forecaster
  | leadTime
deriving DecidableEq

/-- Modelled from the spec (§4.6, §7): `TrainingError{stage, cause}`. -/
structure TrainingError where
  stage : Stage
  cause : String
deriving DecidableEq

/-- Modelled from the spec (§6 Train): `TrainingReport {rows_used,
stages_completed}`. -/
structure TrainingReport where
  rows_used : ℕ
  stages_completed : ℕ
deriving DecidableEq

/-- Modelled from the spec (§3 ModelArtifact, §9): one artifact
generation — the three trained models plus the retained history snapshot
that serves lag features. -/
structure Generation where
  imputerModel : HistoricalRecord → ℚ
  forecastModel : FeatureVector → ℚ
  leadModel : LeadContext → ℚ
  history : List (ℤ × ℚ)

/-- Modelled from the spec (§9 global model state): the versioned context
object — the active generation (none while untrained) and the cache. -/
structure SystemState where
  active : Option Generation
  cache : Cache

/-- Modelled from the spec (§6, §7): Predict against the active artifact
generation; `ModelNotTrainedError` before any successful Train. -/
def serve (s : SystemState) (req : PredictionRequest) : Except PredictError PredictionResult :=
  match s.active with
  | none => .error .modelNotTrained
  | some g => predict g.forecastModel g.leadModel g.history req

/-- Modelled from the spec (§4.6 Training Orchestrator; `core.py`
absent): runs Imputer fit, then Recursive Forecaster training on imputed
targets, then Lead Time Predictor training; persists all three artifacts
and clears the cache only if all three succeed; on any stage failure the
state is returned unchanged with `TrainingError{stage, cause}`. -/
def train
    (fitImputer : List HistoricalRecord → Except String (HistoricalRecord → ℚ))
    (fitForecaster : List HistoricalRecord → List ImputedDemandRecord →
      Except String (FeatureVector → ℚ))
    (fitLeadTime : List HistoricalRecord → Except String (LeadContext → ℚ))
    (hist : List HistoricalRecord) (s : SystemState) :
    Except TrainingError TrainingReport × SystemState :=
  match fitImputer hist with
  | .error c => (.error ⟨.imputer, c⟩, s)
  | .ok impModel =>
    let imputed := hist.map (impute impModel)
    match fitForecaster hist imputed with
    | .error c => (.error ⟨.forecaster, c⟩, s)
    | .ok fcModel =>
      match fitLeadTime hist with
      | .error c => (.error ⟨.leadTime, c⟩, s)
      | .ok ltModel =>
        (.ok ⟨hist.length, 3⟩,
         { active := some ⟨impModel, fcModel, ltModel, imputed.map (fun r => (r.date, r.demand))⟩,
           cache := Cache.clear s.cache })

/-! ## Helper lemmas -/

theorem except_bind_ok {α β ε : Type} (a : α) (f : α → Except ε β) :
    Except.bind (Except.ok a) f = f a := rfl

theorem except_bind_error {α β ε : Type} (e : ε) (f : α → Except ε β) :
    Except.bind (Except.error e) f = Except.error e := rfl

theorem except_map_ok {α β ε : Type} (f : α → β) (a : α) :
    Except.map f (Except.ok a : Except ε α) = Except.ok (f a) := rfl

theorem except_map_error {α β ε : Type} (f : α → β) (e : ε) :
    Except.map f (Except.error e : Except ε α) = Except.error e := rfl

theorem getD_nonneg (l : List ℚ) (i : ℕ) (h : ∀ x ∈ l, 0 ≤ x) : 0 ≤ l.getD i 0 := by
  induction l generalizing i with
  | nil => simp [List.getD]
  | cons a t ih =>
      cases i with
      | zero => simpa using h a (by simp)
      | succ j => simpa using ih j (fun x hx => h x (by simp [hx]))

theorem runChain_ok_nonneg (dm : FeatureVector → ℚ) (hist : List (ℤ × ℚ)) (start : ℤ) :
    ∀ n l, runChain dm hist start n = .ok l → ∀ x ∈ l, 0 ≤ x := by
  intro n
  induction n with
  | zero =>
      intro l h x hx
      simp only [runChain] at h
      injection h with h
      subst h
      simp at hx
  | succ n ih =>
      intro l h x hx
      simp only [runChain] at h
      cases hp : runChain dm hist start n with
      | error e =>
          rw [hp, except_bind_error] at h
          exact Except.noConfusion h
      | ok prev =>
          rw [hp, except_bind_ok] at h
          cases hb : buildFeatures (hist ++ chainRecords start prev) (start + (n : ℤ)) with
          | error e =>
              rw [hb, except_bind_error] at h
              exact Except.noConfusion h
          | ok fv =>
              rw [hb, except_bind_ok] at h
              injection h with h
              subst h
              rcases List.mem_append.mp hx with hx | hx
              · exact ih prev hp x hx
              · rw [List.mem_singleton.mp hx]
                exact le_max_left 0 _

theorem runChain_short_error (dm : FeatureVector → ℚ) (hist : List (ℤ × ℚ)) (start : ℤ)
    (h : countPrior hist start < 30) :
    ∀ n, runChain dm hist start (n + 1) = .error .insufficientHistory := by
  intro n
  induction n with
  | zero =>
      simp [runChain, except_bind_ok, except_bind_error, chainRecords, buildFeatures, h]
  | succ k ih =>
      simp only [runChain] at ih ⊢
      rw [ih, except_bind_error]

/-! ## Witness fixtures -/

def wDM : FeatureVector → ℚ := fun _ => 10

def wLM : LeadContext → ℚ := fun _ => 3

def wHist : List (ℤ × ℚ) := (List.range 30).map (fun i => ((i : ℤ), (10 : ℚ)))

def wReq : PredictionRequest := ⟨30, "STORE0001", "SKU0001", "Beverages", "BrandA"⟩

def wRecord : HistoricalRecord :=
  ⟨0, "STORE0001", "SKU0001", 10, 5, 3, 0, false, "Beverages", "BrandA", 20, 0, false, "Retail", false⟩

/-! ## Claim theorems for the forecasting core -/

/-- C2: imputation never lowers the observed signal — for every historical
row the imputed demand is at least the observed units sold, and for a row
without a stockout flag it equals the observed units sold exactly. -/
theorem impute_never_below_observed (model : HistoricalRecord → ℚ) (r : HistoricalRecord) :
    r.units_sold ≤ (impute model r).demand ∧
    (r.stockout = false → (impute model r).demand = r.units_sold) := by
  unfold impute
  cases h : r.stockout <;> simp [h, le_max_left]

/-- Witness for C2: a concrete non-stockout row keeps its observed sales. -/
theorem impute_never_below_observed_witness :
    (impute (fun _ => 0) wRecord).demand = wRecord.units_sold :=
  (impute_never_below_observed (fun _ => 0) wRecord).2 rfl

/-- C7: the Feature Builder fails with `InsufficientHistoryError` if and
only if fewer than 30 days of history precede the anchor date, and the
error is surfaced to the caller: a Predict whose start date has fewer than
30 prior history days returns exactly that error. -/
theorem featureBuilder_min_history (hist : List (ℤ × ℚ)) (anchor : ℤ)
    (dm : FeatureVector → ℚ) (lm : LeadContext → ℚ) (req : PredictionRequest) :
    (buildFeatures hist anchor = .error .insufficientHistory ↔ countPrior hist anchor < 30) ∧
    (countPrior hist req.start_date < 30 →
      predict dm lm hist req = .error .insufficientHistory) := by
  constructor
  · by_cases h : countPrior hist anchor < 30 <;> simp [buildFeatures, h]
  · intro h
    unfold predict
    rw [show (7 : ℕ) = 6 + 1 from rfl, runChain_short_error dm hist req.start_date h 6,
      except_map_error]

/-- Witness for C7: Predict on an empty history fails with the
insufficient-history error. -/
theorem featureBuilder_min_history_witness :
    predict wDM wLM [] wReq = .error .insufficientHistory :=
  (featureBuilder_min_history [] 0 wDM wLM wReq).2 (by decide)

/-- C1: every Predict call that succeeds returns exactly 7 daily entries
whose dates are `start_date, start_date + 1, ..., start_date + 6` —
strictly ascending, no gaps, starting at the request's start date. -/
theorem predict_seven_ascending (dm : FeatureVector → ℚ) (lm : LeadContext → ℚ)
    (hist : List (ℤ × ℚ)) (req : PredictionRequest)
    (h : (predict dm lm hist req).isOk = true) :
    (predict dm lm hist req).map
        (fun r => (r.predictions.length, r.predictions.map DailyEntry.date)) =
      .ok (7, (List.range 7).map (fun i => req.start_date + (i : ℤ))) := by
  cases hc : runChain dm hist req.start_date 7 with
  | error e =>
      unfold predict at h
      rw [hc, except_map_error] at h
      exact absurd h (by simp [Except.isOk, Except.toBool])
  | ok chain =>
      unfold predict
      rw [hc, except_map_ok, except_map_ok]
      dsimp only
      refine congrArg Except.ok ?_
      refine Prod.ext ?_ ?_
      · simp
      · rw [List.map_map]
        exact List.map_congr_left (fun i _ => rfl)

/-- Witness for C1: a successful Predict over 30 days of flat history
returns 7 entries dated 30..36. -/
theorem predict_seven_ascending_witness :
    (predict wDM wLM wHist wReq).isOk = true ∧
    (predict wDM wLM wHist wReq).map
        (fun r => (r.predictions.length, r.predictions.map DailyEntry.date)) =
      .ok (7, (List.range 7).map (fun i => wReq.start_date + (i : ℤ))) :=
  ⟨by decide, predict_seven_ascending wDM wLM wHist wReq (by decide)⟩

/-- C3: Predict is deterministic — two calls whose five request fields
agree, made against the same active model generation and the same
underlying history, produce identical PredictionResult values; there is
no randomness at inference time. -/
theorem predict_deterministic (dm : FeatureVector → ℚ) (lm : LeadContext → ℚ)
    (hist : List (ℤ × ℚ)) (r1 r2 : PredictionRequest)
    (h1 : r1.start_date = r2.start_date) (h2 : r1.store_id = r2.store_id)
    (h3 : r1.sku_id = r2.sku_id) (h4 : r1.category = r2.category)
    (h5 : r1.brand = r2.brand) :
    predict dm lm hist r1 = predict dm lm hist r2 := by
  have h : r1 = r2 := by
    cases r1
    cases r2
    simp_all
  rw [h]

/-- Witness for C3: two identically-filled requests get the same result. -/
theorem predict_deterministic_witness :
    predict wDM wLM wHist wReq =
      predict wDM wLM wHist ⟨30, "STORE0001", "SKU0001", "Beverages", "BrandA"⟩ :=
  predict_deterministic wDM wLM wHist wReq _ rfl rfl rfl rfl rfl

/-- Day-0 entry of the witness forecast: flat demand 10, lead time 3. -/
def wEntry : DailyEntry := ⟨30, 10, 3, [("prediction", 10)], [("prediction", 3)]⟩

/-- C4: every entry of every PredictionResult returned by Predict has
`predicted_units_sold ≥ 0` (negative demand predictions are clipped to
zero) and `predicted_lead_time_days ≥ 0` (negative lead-time predictions
are clamped at zero). -/
theorem predict_entries_nonneg (dm : FeatureVector → ℚ) (lm : LeadContext → ℚ)
    (hist : List (ℤ × ℚ)) (req : PredictionRequest) :
    ∀ e ∈ (((predict dm lm hist req).toOption).map PredictionResult.predictions).getD [],
      0 ≤ e.predicted_units_sold ∧ 0 ≤ e.predicted_lead_time_days := by
  intro e he
  cases hc : runChain dm hist req.start_date 7 with
  | error e0 =>
      unfold predict at he
      rw [hc, except_map_error] at he
      simp [Except.toOption] at he
  | ok chain =>
      unfold predict at he
      rw [hc, except_map_ok] at he
      have he2 : e ∈ (List.range 7).map (fun i => mkEntry req lm (chain.getD i 0) i) := he
      obtain ⟨i, hi, rfl⟩ := List.mem_map.mp he2
      constructor
      · have hnn := runChain_ok_nonneg dm hist req.start_date 7 chain hc
        simpa [mkEntry] using getD_nonneg chain i hnn
      · simp [mkEntry, le_max_left]

/-- Witness for C4: the first entry of the witness forecast is
nonnegative in both predicted fields. -/
theorem predict_entries_nonneg_witness :
    0 ≤ wEntry.predicted_units_sold ∧ 0 ≤ wEntry.predicted_lead_time_days :=
  predict_entries_nonneg wDM wLM wHist wReq wEntry (by decide)

/-- Empty untrained system state used by the training witnesses. -/
def wState : SystemState := ⟨none, ⟨[], 0, 0, 128⟩⟩

/-- C5: the Training Orchestrator is all-or-nothing — if any stage of the
Imputer → Recursive Forecaster → Lead Time Predictor sequence fails, the
system state is returned unchanged (no artifact from that run is
persisted, the cache is not cleared) and the previously active generation
continues to serve every Predict request unchanged. -/
theorem train_all_or_nothing
    (fitImputer : List HistoricalRecord → Except String (HistoricalRecord → ℚ))
    (fitForecaster : List HistoricalRecord → List ImputedDemandRecord →
      Except String (FeatureVector → ℚ))
    (fitLeadTime : List HistoricalRecord → Except String (LeadContext → ℚ))
    (hist : List HistoricalRecord) (s : SystemState) (e : TrainingError)
    (h : (train fitImputer fitForecaster fitLeadTime hist s).1 = .error e) :
    (train fitImputer fitForecaster fitLeadTime hist s).2 = s ∧
    ∀ req, serve (train fitImputer fitForecaster fitLeadTime hist s).2 req = serve s req := by
  have hs : (train fitImputer fitForecaster fitLeadTime hist s).2 = s := by
    cases hi : fitImputer hist with
    | error c => simp [train, hi]
    | ok impModel =>
      cases hf : fitForecaster hist (hist.map (impute impModel)) with
      | error c => simp [train, hi, hf]
      | ok fcModel =>
        cases hl : fitLeadTime hist with
        | error c => simp [train, hi, hf, hl]
        | ok ltModel => simp [train, hi, hf, hl] at h
  exact ⟨hs, fun req => by rw [hs]⟩

/-- Witness for C5: a failing imputer stage leaves the untrained state
untouched and serving behaviour identical. -/
theorem train_all_or_nothing_witness :
    (train (fun _ => .error "no rows") (fun _ _ => .ok (fun _ => 0))
        (fun _ => .ok (fun _ => 0)) [] wState).2 = wState ∧
    ∀ req, serve (train (fun _ => .error "no rows") (fun _ _ => .ok (fun _ => 0))
        (fun _ => .ok (fun _ => 0)) [] wState).2 req = serve wState req :=
  train_all_or_nothing _ _ _ _ _ ⟨.imputer, "no rows"⟩ rfl

theorem cacheGet_hit (c : Cache) (fp : Fingerprint) (r : PredictionResult)
    (h : (Cache.get c fp).1 = some r) :
    Cache.get c fp =
      (some r,
       { c with hits := c.hits + 1,
                entries := (fp, r) :: c.entries.filter (fun p => !decide (p.1 = fp)) }) := by
  unfold Cache.get at h ⊢
  cases hf : c.entries.find? (fun p => decide (p.1 = fp)) with
  | none =>
      rw [hf] at h
      simp at h
  | some p =>
      rw [hf] at h
      simp only at h
      injection h with h
      simp [h]

theorem cachedPredict_call_counter (compute : PredictionRequest → PredictionResult)
    (c : Cache) (req : PredictionRequest) :
    (cachedPredict compute c req).2.hits + (cachedPredict compute c req).2.misses
      = c.hits + c.misses + 1 := by
  unfold cachedPredict Cache.get
  cases hf : c.entries.find? (fun p => decide (p.1 = fingerprint req)) with
  | none =>
      simp only [hf]
      try simp [Cache.put]
      all_goals omega
  | some p =>
      simp only [hf]
      all_goals omega

theorem runCalls_counter (compute : PredictionRequest → PredictionResult) :
    ∀ (reqs : List PredictionRequest) (c : Cache),
      (runCalls compute c reqs).hits + (runCalls compute c reqs).misses
        = c.hits + c.misses + reqs.length := by
  intro reqs
  induction reqs with
  | nil =>
      intro c
      simp [runCalls]
  | cons r rs ih =>
      intro c
      simp only [runCalls]
      rw [ih]
      have := cachedPredict_call_counter compute c r
      simp only [List.length_cons]
      omega

/-- C6: a Predict call whose request is already cached returns the cached
result and increments `hits`, leaving `misses` unchanged; and for any
sequence of Predict calls made after the last `clear()`,
`stats().hits + stats().misses` equals the number of calls. -/
theorem cache_hit_idempotent_counters
    (compute : PredictionRequest → PredictionResult) (c : Cache)
    (req : PredictionRequest) (r : PredictionResult)
    (h : (Cache.get c (fingerprint req)).1 = some r)
    (reqs : List PredictionRequest) (c0 : Cache) :
    (cachedPredict compute c req).1 = r ∧
    (cachedPredict compute c req).2.hits = c.hits + 1 ∧
    (cachedPredict compute c req).2.misses = c.misses ∧
    (Cache.stats (runCalls compute (Cache.clear c0) reqs)).1 +
      (Cache.stats (runCalls compute (Cache.clear c0) reqs)).2.1 = reqs.length := by
  have hget := cacheGet_hit c (fingerprint req) r h
  refine ⟨?_, ?_, ?_, ?_⟩
  · simp [cachedPredict, hget]
  · simp [cachedPredict, hget]
  · simp [cachedPredict, hget]
  · have hc := runCalls_counter compute reqs (Cache.clear c0)
    simp only [Cache.clear, Cache.stats] at hc ⊢
    omega

/-- A concrete cached result used by the cache witness. -/
def wResult : PredictionResult := ⟨wReq, [], "success"⟩

/-- A cache already holding the witness request's result. -/
def wCache : Cache := ⟨[(fingerprint wReq, wResult)], 0, 0, 128⟩

/-- Witness for C6 at a concrete cache: the repeated request hits, the
counters move as claimed, and one call after clear gives hits+misses=1. -/
theorem cache_hit_idempotent_counters_witness :
    (cachedPredict (fun _ => wResult) wCache wReq).1 = wResult ∧
    (cachedPredict (fun _ => wResult) wCache wReq).2.hits = wCache.hits + 1 ∧
    (cachedPredict (fun _ => wResult) wCache wReq).2.misses = wCache.misses ∧
    (Cache.stats (runCalls (fun _ => wResult) (Cache.clear wCache) [wReq])).1 +
      (Cache.stats (runCalls (fun _ => wResult) (Cache.clear wCache) [wReq])).2.1 =
      [wReq].length :=
  cache_hit_idempotent_counters (fun _ => wResult) wCache wReq wResult (by decide) [wReq] wCache
